import Mathlib

/- Verification development for the zklib-fitness client library (a TypeScript
   client for ZKTeco attendance terminals). The codec, the transport state
   updates and the facade dispatch are shallowly embedded below; buffers are
   modelled as lists of byte values (Nat below 256) and the integer-valued
   JS arithmetic on these code paths is modelled over Nat. -/

/-- Modelled from the spec: the constants module of the repository is not under
src. The spec describes the checksum as reducing modulo 65536 after each add
with final value 65535 - sum - 1, and the reply id as wrapping modulo 65536,
which fixes USHRT_MAX at 65536. -/
def USHRT_MAX : Nat := 65536

/-- Modelled from the spec: chunk size for bulk transfers, typical value 65535;
the constants module holding the codebase value is not under src. -/
def MAX_CHUNK : Nat := 65535

/-- Modelled from the spec: opcode of the CONNECT command. The spec defers the
numeric opcode values to the absent constants module; the published ZK protocol
values are used. Only distinctness of the opcodes matters below. -/
def CMD_CONNECT : Nat := 1000

/-- Modelled from the spec: opcode of the EXIT command. -/
def CMD_EXIT : Nat := 1001

/-- Modelled from the spec: opcode of a chunked DATA frame. -/
def CMD_DATA : Nat := 1501

/-- Modelled from the spec: opcode of the ACK_OK reply. -/
def CMD_ACK_OK : Nat := 2000

/-- Modelled from the spec: opcode of the PREPARE_DATA announcement. -/
def CMD_PREPARE_DATA : Nat := 1500

/-- Modelled from the spec: opcode of the DATA_RDY chunk request. -/
def CMD_DATA_RDY : Nat := 1504

/-- Modelled from the spec: opcode of the DATA_WRRQ bulk-read request. -/
def CMD_DATA_WRRQ : Nat := 1503

/-- Modelled from the spec: opcode of a real-time event frame. -/
def CMD_REG_EVENT : Nat := 500

/-- Modelled from the spec: event kind of an attendance-log event. -/
def EF_ATTLOG : Nat := 1

/-- The two bytes written by writeUInt16LE for a value below 65536. -/
def w16 (v : Nat) : List Nat := [v % 256, v / 256 % 256]

/-- readUInt16LE at offset i, with getD standing for the in-bounds read. -/
def u16le (l : List Nat) (i : Nat) : Nat := l.getD i 0 + 256 * l.getD (i + 1) 0

/-- Buffer write: overwrite bytes of buf from offset off with bs, truncated at
the end of the buffer, as Buffer.prototype.write and the fixed-width writes do. -/
def bufWrite (buf : List Nat) (off : Nat) (bs : List Nat) : List Nat :=
  let k := min bs.length (buf.length - off)
  buf.take off ++ bs.take k ++ buf.drop (off + k)

/-- Loop of createCheckSum (src/src/utils.ts lines 40-53): sum the buffer as
16-bit little-endian words, a final odd byte added alone, reducing modulo
USHRT_MAX after each add. -/
def checkSumLoop : List Nat → Nat → Nat
  | [], acc => acc
  | [b], acc => (acc + b) % USHRT_MAX
  | a :: b :: rest, acc => checkSumLoop rest ((acc + (a + 256 * b)) % USHRT_MAX)

/-- createCheckSum (src/src/utils.ts lines 40-53). -/
def createCheckSum (buf : List Nat) : Nat := USHRT_MAX - checkSumLoop buf 0 - 1

/-- createUDPHeader (src/src/utils.ts lines 55-78). The 8-byte header and the
payload are built with the checksum field zero, the checksum of that frame is
written back into bytes 2-3, and bytes 6-7 are then restamped with
(replyId + 1) mod USHRT_MAX. The sequence of fixed-offset writes is flattened
into the final list. -/
def createUDPHeader (command sessionId replyId : Nat) (data : List Nat) : List Nat :=
  let ck := createCheckSum (w16 command ++ w16 0 ++ w16 sessionId ++ w16 replyId ++ data)
  w16 command ++ w16 ck ++ w16 sessionId ++ w16 ((replyId + 1) % USHRT_MAX) ++ data

/-- createTCPHeader (src/src/utils.ts lines 80-109). The inner frame is built
exactly as in createUDPHeader (the source duplicates the same statements);
the 8-byte TCP prefix carries the signature, the inner length as u16 LE at
offset 4 and two zero bytes. -/
def createTCPHeader (command sessionId replyId : Nat) (data : List Nat) : List Nat :=
  let inner := createUDPHeader command sessionId replyId data
  [0x50, 0x50, 0x82, 0x7d] ++ w16 inner.length ++ [0, 0] ++ inner

/-- removeTcpHeader (src/src/utils.ts lines 113-126): the input is returned
unchanged when shorter than 8 bytes or when the first four bytes differ from
the TCP signature, and loses its first 8 bytes otherwise. -/
def removeTcpHeader (buf : List Nat) : List Nat :=
  if buf.length < 8 then buf
  else if buf.take 4 = [0x50, 0x50, 0x82, 0x7d] then buf.drop 8
  else buf

/-- Decoded 8-byte UDP header (src/src/utils.ts lines 238-251). -/
structure UDPHeaderRec where
  commandId : Nat
  checkSum : Nat
  sessionId : Nat
  replyId : Nat
deriving DecidableEq, Repr

/-- decodeUDPHeader (src/src/utils.ts lines 238-251). -/
def decodeUDPHeader (header : List Nat) : UDPHeaderRec :=
  ⟨u16le header 0, u16le header 2, u16le header 4, u16le header 6⟩

/-- checkNotEventTCP (src/src/utils.ts lines 285-295): despite the name, it
returns true exactly when the frame IS an event. The source reads the u16 at
offsets 0 and 4 after stripping the TCP prefix; a read past the end throws and
the catch returns false, modelled by the length guard. -/
def checkNotEventTCP (data : List Nat) : Bool :=
  let d := removeTcpHeader data
  if d.length < 6 then false
  else decide (u16le d 4 = EF_ATTLOG ∧ u16le d 0 = CMD_REG_EVENT)

/-- checkNotEventUDP (src/src/utils.ts lines 297-300): true exactly when the
commandId of the 8-byte header equals CMD_REG_EVENT. -/
def checkNotEventUDP (data : List Nat) : Bool :=
  decide ((decodeUDPHeader (data.take 8)).commandId = CMD_REG_EVENT)

/-- Result of the compact packed-timestamp decoder; the month is zero-based,
as consumed by the JS Date constructor. -/
structure ZkDate where
  year : Nat
  month : Nat
  day : Nat
  hour : Nat
  minute : Nat
  second : Nat
deriving DecidableEq, Repr

/-- parseTimeToDate (src/src/utils.ts lines 4-18), the compact packed-timestamp
decoder: successive modulo and exact-division steps over the u32 value. -/
def parseTimeToDate (time : Nat) : ZkDate :=
  let second := time % 60
  let t1 := (time - second) / 60
  let minute := t1 % 60
  let t2 := (t1 - minute) / 60
  let hour := t2 % 24
  let t3 := (t2 - hour) / 24
  let day := t3 % 31 + 1
  let t4 := (t3 - (day - 1)) / 31
  let month := t4 % 12
  let t5 := (t4 - month) / 12
  ⟨t5 + 2000, month, day, hour, minute, second⟩

/-- Mutable counters of a transport instance: sessionId is null before the
first CONNECT (src/unnamed/part_000 lines 28-38; the UDP sibling mirrors it). -/
structure ZkSession where
  sessionId : Option Nat
  replyId : Nat
deriving DecidableEq, Repr

/-- Counter update at the top of ZKLibTCP.executeCmd (src/unnamed/part_000
lines 196-201): CONNECT resets sessionId and replyId to 0, every other command
increments replyId by one; no modulo is applied to the counter. -/
def executeCmdUpdateTCP (s : ZkSession) (command : Nat) : ZkSession :=
  if command = CMD_CONNECT then ⟨some 0, 0⟩ else ⟨s.sessionId, s.replyId + 1⟩

/-- Counter update at the top of ZKLibUDP.executeCmd (the UDP transport file,
lines 232-237): textually the same branch as the TCP one. -/
def executeCmdUpdateUDP (s : ZkSession) (command : Nat) : ZkSession :=
  if command = CMD_CONNECT then ⟨some 0, 0⟩ else ⟨s.sessionId, s.replyId + 1⟩

/-- Frame emitted by ZKLibUDP.executeCmd: the header is built from the updated
counters (a null sessionId is passed through the non-null assertion in the
source; claims never reach that case, modelled by getD 0). -/
def executeCmdFrameUDP (s : ZkSession) (command : Nat) (data : List Nat) : List Nat :=
  let s1 := executeCmdUpdateUDP s command
  createUDPHeader command (s1.sessionId.getD 0) s1.replyId data

/-- Frame emitted by ZKLibTCP.executeCmd (src/unnamed/part_000 lines 203-208). -/
def executeCmdFrameTCP (s : ZkSession) (command : Nat) (data : List Nat) : List Nat :=
  let s1 := executeCmdUpdateTCP s command
  createTCPHeader command (s1.sessionId.getD 0) s1.replyId data

/-- Outcome of the single write-and-await-reply step (ZKLibTCP.writeMessage,
src/unnamed/part_000 lines 107-134): the write errors, the reply timer fires,
or one data event delivers a byte buffer. -/
inductive WireOutcome where
  | writeErr
  | writeTimeout
  | reply (bytes : List Nat)
deriving DecidableEq, Repr

/-- Failure cases of ZKLibTCP.executeCmd: the write error and the timeout are
forwarded from writeMessage, and a nonempty stripped CONNECT reply shorter than
6 bytes makes the readUInt16LE(4) session-id read throw out of range. -/
inductive ExecErr where
  | writeErr
  | writeTimeout
  | sessionIdReadOutOfRange
deriving DecidableEq, Repr

/-- Reply handling of ZKLibTCP.executeCmd (src/unnamed/part_000 lines 210-226):
the TCP prefix is stripped; on a nonempty stripped CONNECT reply the session id
is taken from offset 4; the stripped reply is resolved. -/
def executeCmdTCP (s : ZkSession) (command : Nat) (wire : WireOutcome) :
    ZkSession × Except ExecErr (List Nat) :=
  let s1 := executeCmdUpdateTCP s command
  match wire with
  | .writeErr => (s1, .error .writeErr)
  | .writeTimeout => (s1, .error .writeTimeout)
  | .reply r =>
    let rr := removeTcpHeader r
    if rr.length ≠ 0 ∧ command = CMD_CONNECT then
      if 6 ≤ rr.length then ({ s1 with sessionId := some (u16le rr 4) }, .ok rr)
      else (s1, .error .sessionIdReadOutOfRange)
    else (s1, .ok rr)

/-- ZKLibTCP.connect (src/unnamed/part_000 lines 74-85): resolves true when
executeCmd resolves, because every Buffer value, the empty one included, is
truthy in JS, so the NO_REPLY_ON_CMD_CONNECT branch is dead code. -/
def connectTCP (s : ZkSession) (wire : WireOutcome) : ZkSession × Except ExecErr Bool :=
  match executeCmdTCP s CMD_CONNECT wire with
  | (s1, .ok _) => (s1, .ok true)
  | (s1, .error e) => (s1, .error e)

/-- Chunk-request loop shared by both transports (src/unnamed/part_000 lines
368-374 and the UDP transport file lines 375-381): iterations i = 0 ..
numberChunks inclusive, the last one requesting the remainder. Each element is
the (start, size) pair passed to sendChunkRequest. -/
def chunkLoop (numberChunks chunkSize remain : Nat) : List (Nat × Nat) :=
  (List.range (numberChunks + 1)).map fun i =>
    if i = numberChunks then (numberChunks * chunkSize, remain) else (i * chunkSize, chunkSize)

/-- Chunk requests issued by ZKLibTCP.readWithBuffer (src/unnamed/part_000
lines 293-295 and 368-374): remain = size mod MAX_CHUNK and numberChunks =
round(size - remain) / MAX_CHUNK, the rounding being the identity on the
integer size - remain. -/
def sendChunkRequestsTCP (size : Nat) : List (Nat × Nat) :=
  let remain := size % MAX_CHUNK
  let numberChunks := (size - remain) / MAX_CHUNK
  chunkLoop numberChunks MAX_CHUNK remain

/-- Chunk requests issued by ZKLibUDP.handlePreparedData (the UDP transport
file lines 318-319 and 375-381): numberChunks = floor(size / MAX_CHUNK). -/
def sendChunkRequestsUDP (size : Nat) : List (Nat × Nat) :=
  let numberChunks := size / MAX_CHUNK
  let remain := size % MAX_CHUNK
  chunkLoop numberChunks MAX_CHUNK remain

/-- Errors carried by a resolved UDP bulk read. The source resolves with the
message TIMEOUT WHEN RECEIVING PACKET from the initial idle timer and with a
percent-remaining variant from the reset timer; both are timeout errors and are
modelled by the single timeout constructor. -/
inductive UdpErr where
  | timeout
  | unhandledCmd
deriving DecidableEq, Repr

/-- Resolution value of ZKLibUDP.handlePreparedData: the accumulated buffer
with an optional error. The promise executor never calls reject. -/
structure UdpReadResult where
  data : List Nat
  err : Option UdpErr
deriving DecidableEq, Repr

/-- Events reaching the reassembly listener: an inbound datagram or the expiry
of the idle timer. -/
inductive UdpRecvEvent where
  | frame (bytes : List Nat)
  | idleTimeout
deriving DecidableEq, Repr

/-- One step of the ZKLibUDP.handlePreparedData listener (the UDP transport
file lines 325-371): event frames are skipped, DATA frames append their bytes
from offset 8 to the accumulator, ACK_OK resolves the accumulator exactly when
its length equals the announced size, PREPARE_DATA does nothing, any other
command resolves an empty buffer with an unhandled-command error, and the idle
timer resolves the partial accumulator with a timeout error. The progress
callback does not affect the state and is not modelled. -/
def handlePreparedStep (size : Nat) (total : List Nat) :
    UdpRecvEvent → List Nat × Option UdpReadResult
  | .idleTimeout => (total, some ⟨total, some .timeout⟩)
  | .frame reply =>
    if checkNotEventUDP reply then (total, none)
    else
      let header := decodeUDPHeader reply
      if header.commandId = CMD_DATA then (total ++ reply.drop 8, none)
      else if header.commandId = CMD_ACK_OK then
        if total.length = size then (total, some ⟨total, none⟩) else (total, none)
      else if header.commandId = CMD_PREPARE_DATA then (total, none)
      else (total, some ⟨[], some .unhandledCmd⟩)

/-- Socket-facing state of a ZKLibTCP instance: whether a socket object exists,
whether it is destroyed, and the private socketStatus string (src/unnamed/
part_000 lines 24-40). -/
structure TcpSockState where
  present : Bool
  destroyed : Bool
  status : String
deriving DecidableEq, Repr

/-- Events of the TCP socket lifecycle as handled by ZKLibTCP.createSocket
(src/unnamed/part_000 lines 42-72). -/
inductive TcpSockEvent where
  | create
  | connected
  | errored
  | closed
deriving DecidableEq, Repr

/-- Transition function for the TCP socket lifecycle. create is only invoked
under the facade guard that no socket exists (src/src/zklib.ts lines 101-108)
and yields a fresh non-destroyed socket; the connect handler sets the status to
Open; the error handler sets it to Error, and the Node runtime destroys the
socket before emitting the error event, hence destroyed is set; the close
handler clears the socket reference and sets the status to Closed. Handlers
only fire while a socket exists. -/
def tcpSockStep (s : TcpSockState) (e : TcpSockEvent) : TcpSockState :=
  match e with
  | .create => if s.present then s else ⟨true, false, s.status⟩
  | .connected => if s.present then ⟨s.present, s.destroyed, "Open"⟩ else s
  | .errored => if s.present then ⟨s.present, true, "Error"⟩ else s
  | .closed => if s.present then ⟨false, s.destroyed, "Closed"⟩ else s

/-- Initial state of a ZKLibTCP instance: no socket, socketStatus Closed. -/
def tcpSockInit : TcpSockState := ⟨false, false, "Closed"⟩

/-- State reached after a sequence of socket lifecycle events. -/
def tcpSockRun (evs : List TcpSockEvent) : TcpSockState :=
  evs.foldl tcpSockStep tcpSockInit

/-- ZKLibTCP.getSocketStatus (src/unnamed/part_000 lines 389-399). -/
def getSocketStatusTCP (s : TcpSockState) : String :=
  if !s.present then "No socket instance"
  else if s.destroyed then "Closed"
  else s.status

/-- Socket-facing state of a ZKLibUDP instance: whether a socket exists and,
when it is bound, its local port (address() throws when unbound). -/
structure UdpSockState where
  present : Bool
  boundPort : Option Nat
deriving DecidableEq, Repr

/-- ZKLibUDP.getSocketStatus (the UDP transport file lines 509-521). -/
def getSocketStatusUDP (s : UdpSockState) : String :=
  if !s.present then "No socket instance"
  else
    match s.boundPort with
    | some p => "Bound to port " ++ toString p
    | none => "Unbound"

/-- Connection type recorded by the facade after createSocket succeeds. -/
inductive ConnType where
  | tcp
  | udp
deriving DecidableEq, Repr

/-- Error codes of the error taxonomy (src/src/zkerror.ts lines 2-8) that the
facade wrapper can raise. -/
inductive ErrCode where
  | ECONNREFUSED
  | EINVALID
deriving DecidableEq, Repr

/-- The exact message of the connection error raised by the facade
(src/src/zklib.ts lines 69-78); the contraction is spelled with Char.ofNat 39. -/
def socketNotConnectedMsg : String :=
  "Socket isn" ++ (Char.ofNat 39).toString ++ "t connected !"

/-- Message of the error raised when a UDP operation has no UDP callback. -/
def udpCallbackNotProvidedMsg : String := "UDP callback not provided"

/-- A ZKError as raised by the facade: the inner code and message, the command
context string, and the device ip (src/src/zkerror.ts lines 16-25). -/
structure ZkErr where
  code : ErrCode
  message : String
  command : String
  ip : String
deriving DecidableEq, Repr

/-- Outcome of ZKLib.functionWrapper before any transport work happens: either
a ZKError is thrown, or the chosen transport callback runs. -/
inductive WrapperOutcome where
  | fail (e : ZkErr)
  | run (c : ConnType)
deriving DecidableEq, Repr

/-- ZKLib.functionWrapper (src/src/zklib.ts lines 25-67): dispatch on the
connection type; a missing socket raises the connection error, a missing UDP
callback raises EINVALID, a null connection type raises the connection error
with an empty context; otherwise the chosen callback runs. -/
def functionWrapper (conn : Option ConnType) (tcpSocket udpSocket hasUdpCb : Bool)
    (ip : String) : WrapperOutcome :=
  match conn with
  | some .tcp =>
    if tcpSocket then .run .tcp
    else .fail ⟨.ECONNREFUSED, socketNotConnectedMsg, "[TCP]", ip⟩
  | some .udp =>
    if udpSocket then
      if hasUdpCb then .run .udp
      else .fail ⟨.EINVALID, udpCallbackNotProvidedMsg, "[UDP]", ip⟩
    else .fail ⟨.ECONNREFUSED, socketNotConnectedMsg, "[UDP]", ip⟩
  | none => .fail ⟨.ECONNREFUSED, socketNotConnectedMsg, "", ip⟩

/-- Validation guard of ZKLibTCP.setUser (src/unnamed/part_000 lines 583-590):
true when the input is rejected with the invalid-input error. uidVal is the
parseInt value of the uid string, which can be negative; the remaining
arguments are the lengths of the respective strings. -/
def setUserInvalid (uidVal : Int) (useridLen nameLen passwordLen cardnoLen : Nat) : Bool :=
  uidVal = 0 || uidVal > 3000 || useridLen > 9 || nameLen > 24 ||
    passwordLen > 8 || cardnoLen > 10

/-- The 72-byte USER_WRQ payload built by ZKLibTCP.setUser (src/unnamed/
part_000 lines 594-601) for in-range numeric values: uid as u16 at 0, role as
u16 at 2, up to 8 password bytes at 3, up to 24 name bytes at 11, cardno as u16
at 35, a zero u32 at 40, and at 48 the base-9 digit string produced by
Number(userid).toString(9) when the userid string is nonempty. -/
def setUserPayload (uidVal : Nat) (useridNonempty : Bool) (useridVal : Nat)
    (name password : List Nat) (role : Nat) (cardnoVal : Nat) : List Nat :=
  let b0 := List.replicate 72 0
  let b1 := bufWrite b0 0 (w16 uidVal)
  let b2 := bufWrite b1 2 (w16 role)
  let b3 := bufWrite b2 3 (password.take 8)
  let b4 := bufWrite b3 11 (name.take 24)
  let b5 := bufWrite b4 35 (w16 cardnoVal)
  let b6 := bufWrite b5 40 [0, 0, 0, 0]
  let userid9 := if useridNonempty then (Nat.toDigits 9 useridVal).map Char.toNat else []
  bufWrite b6 48 userid9

/-- The userId field as read back by decodeUserData72 (src/src/utils.ts lines
169-173): ASCII bytes 48-56 up to the first NUL. -/
def decodeUserData72_userId (userData : List Nat) : List Nat :=
  ((userData.drop 48).take 9).takeWhile (fun b => b ≠ 0)

theorem createCheckSum_lt (l : List Nat) : createCheckSum l < 65536 := by
  unfold createCheckSum USHRT_MAX
  omega

theorem u16le_two_of_append (a v : Nat) (l1 l2 l3 : List Nat) (h : v < 65536) :
    u16le ((((w16 a ++ w16 v) ++ l1) ++ l2) ++ l3) 2 = v := by
  simp only [u16le, w16, List.cons_append, List.nil_append,
    List.getD_cons_succ, List.getD_cons_zero]
  omega

theorem u16le_createUDPHeader_two (command sessionId replyId : Nat) (data : List Nat) :
    u16le (createUDPHeader command sessionId replyId data) 2 =
      createCheckSum (w16 command ++ w16 0 ++ w16 sessionId ++ w16 replyId ++ data) := by
  simp only [createUDPHeader]
  exact u16le_two_of_append command _ _ _ _ (createCheckSum_lt _)

/-- C1, counterexample: for the CONNECT frame built from session id 0 and reply
id 0 with empty body, recomputing the checksum over the emitted frame with its
checksum field zeroed does not yield the value stored in bytes 2-3, because
bytes 6-7 were restamped with the incremented reply id after the checksum was
computed. -/
theorem c1_checksum_roundtrip_cex :
    createCheckSum (bufWrite (createUDPHeader CMD_CONNECT 0 0 []) 2 [0, 0]) ≠
      u16le (createUDPHeader CMD_CONNECT 0 0 []) 2 := by
  decide

/-- C1, amended: the checksum stored in bytes 2-3 of the frame emitted by
createUDPHeader (and of the inner frame of createTCPHeader, which is that very
frame) is the checksum of the frame with the checksum field zeroed and with
bytes 6-7 still holding the original reply id, the state the buffer was in
when createCheckSum ran; the emitted frame instead carries (replyId + 1) mod
USHRT_MAX in bytes 6-7. -/
theorem c1_checksum_preframe (command sessionId replyId : Nat) (data : List Nat) :
    u16le (createUDPHeader command sessionId replyId data) 2 =
      createCheckSum (w16 command ++ w16 0 ++ w16 sessionId ++ w16 replyId ++ data)
    ∧ (createTCPHeader command sessionId replyId data).drop 8 =
      createUDPHeader command sessionId replyId data := by
  refine ⟨u16le_createUDPHeader_two command sessionId replyId data, ?_⟩
  simp [createTCPHeader, w16]

/-- C2, counterexample: executing CONNECT resets the replyId counter to 0, yet
the emitted frame carries 1 in its reply-id field (bytes 6-7), not the counter
value reduced modulo 65536. -/
theorem c2_replyid_field_cex :
    u16le (executeCmdFrameUDP ⟨none, 5⟩ CMD_CONNECT []) 6 = 1
    ∧ (executeCmdUpdateUDP ⟨none, 5⟩ CMD_CONNECT).replyId % 65536 = 0
    ∧ u16le (executeCmdFrameUDP ⟨none, 5⟩ CMD_CONNECT []) 6 ≠
        (executeCmdUpdateUDP ⟨none, 5⟩ CMD_CONNECT).replyId % 65536 := by
  refine ⟨by decide, by decide, by decide⟩

theorem u16le_six_of_frame (command sessionId replyId : Nat) (data : List Nat) :
    u16le (createUDPHeader command sessionId replyId data) 6 =
      (replyId + 1) % USHRT_MAX := by
  simp only [createUDPHeader, u16le, w16, List.cons_append, List.nil_append,
    List.getD_cons_succ, List.getD_cons_zero, USHRT_MAX]
  omega

theorem u16le_fourteen_of_tcp_frame (command sessionId replyId : Nat) (data : List Nat) :
    u16le (createTCPHeader command sessionId replyId data) 14 =
      (replyId + 1) % USHRT_MAX := by
  simp only [createTCPHeader, createUDPHeader, u16le, w16, List.cons_append,
    List.nil_append, List.getD_cons_succ, List.getD_cons_zero, USHRT_MAX]
  omega

/-- C2, amended: on both transports executeCmd with CONNECT resets the session
and reply counters to 0, and executeCmd with any other command increments the
replyId counter by exactly one; but the counter itself is never reduced modulo
65536 (the hypothesis keeps it below the range where the 16-bit write throws),
and the reply-id field of every emitted frame carries (replyId + 1) mod
USHRT_MAX, restamped by the builder, not the counter value. -/
theorem c2_replyid_amended (s : ZkSession) (command : Nat) (data : List Nat)
    (hrid : s.replyId < 65535) :
    (executeCmdUpdateTCP s CMD_CONNECT = ⟨some 0, 0⟩
      ∧ executeCmdUpdateUDP s CMD_CONNECT = ⟨some 0, 0⟩)
    ∧ (command ≠ CMD_CONNECT →
        executeCmdUpdateTCP s command = ⟨s.sessionId, s.replyId + 1⟩
        ∧ executeCmdUpdateUDP s command = ⟨s.sessionId, s.replyId + 1⟩)
    ∧ u16le (executeCmdFrameUDP s command data) 6 =
        ((executeCmdUpdateUDP s command).replyId + 1) % USHRT_MAX
    ∧ u16le (executeCmdFrameTCP s command data) 14 =
        ((executeCmdUpdateTCP s command).replyId + 1) % USHRT_MAX := by
  refine ⟨⟨by simp [executeCmdUpdateTCP], by simp [executeCmdUpdateUDP]⟩, ?_, ?_, ?_⟩
  · intro h
    exact ⟨by simp [executeCmdUpdateTCP, h], by simp [executeCmdUpdateUDP, h]⟩
  · exact u16le_six_of_frame command _ _ data
  · exact u16le_fourteen_of_tcp_frame command _ _ data

theorem c2_replyid_amended_witness :
    executeCmdUpdateTCP ⟨some 0, 3⟩ CMD_EXIT = ⟨some 0, 4⟩
    ∧ u16le (executeCmdFrameUDP ⟨some 0, 3⟩ CMD_EXIT []) 6 = 5 := by
  have h := c2_replyid_amended ⟨some 0, 3⟩ CMD_EXIT [] (by decide)
  refine ⟨(h.2.1 (by decide)).1, ?_⟩
  rw [h.2.2.1]
  decide

/-- C5, counterexample: the compact packed-timestamp decoder applied to
347241615 does not produce year 2011, month 0, day 18, 14:15:15. -/
theorem c5_timestamp_cex : parseTimeToDate 347241615 ≠ ⟨2011, 0, 18, 14, 15, 15⟩ := by
  decide

/-- C5, amended: the compact packed-timestamp decoder applied to 347241615
yields, by the division and modulo scheme of the source, year 2010, month 9
(October, zero-based), day 21, hour 0, minute 0, second 15. -/
theorem c5_timestamp_decode : parseTimeToDate 347241615 = ⟨2010, 9, 21, 0, 0, 15⟩ := by
  decide

/-- C6: code bug in ZKLibTCP.setUser. For the valid input uid 1, userid the
string 9 (length 1), empty name and password, role 0, cardno the string 0, the
validation passes, but the payload does not carry the userId string in ASCII
at offset 48 as the 72-byte user layout requires: the source writes
Number(userid).toString(9), the BASE-9 rendering of the numeric value, so the
payload holds the digits 1 and 0 (bytes 49, 48) where the layout, and the
decoder decodeUserData72 of this repository, expect the byte 57 for the
string 9. Reading the payload back with the userId field decoder of
decodeUserData72 yields the string 10, not 9. -/
theorem c6_setuser_userid_base9 :
    setUserInvalid 1 1 0 0 1 = false
    ∧ (setUserPayload 1 true 9 [] [] 0 0).length = 72
    ∧ decodeUserData72_userId (setUserPayload 1 true 9 [] [] 0 0) = [49, 48]
    ∧ decodeUserData72_userId (setUserPayload 1 true 9 [] [] 0 0) ≠ [57] := by
  refine ⟨by decide, by decide, by decide, by decide⟩

/-- C3: during a UDP chunked bulk read with announced size N, a listener step
resolves successfully (error field none) exactly on a non-event frame whose
commandId is ACK_OK arriving while the accumulated length equals N, and the
idle-timer expiry resolves the partial accumulator together with a timeout
error; the promise executor of handlePreparedData has no reject path. -/
theorem c3_udp_reassembly (size : Nat) (total : List Nat) :
    (∀ reply : List Nat,
        (∃ d, (handlePreparedStep size total (.frame reply)).2 = some ⟨d, none⟩)
      ↔ (checkNotEventUDP reply = false
         ∧ (decodeUDPHeader reply).commandId = CMD_ACK_OK
         ∧ total.length = size))
    ∧ handlePreparedStep size total .idleTimeout =
        (total, some ⟨total, some .timeout⟩) := by
  refine ⟨?_, rfl⟩
  intro reply
  constructor
  · rintro ⟨d, hd⟩
    by_cases hev : checkNotEventUDP reply
    · simp [handlePreparedStep, hev] at hd
    · by_cases hdata : (decodeUDPHeader reply).commandId = CMD_DATA
      · simp [handlePreparedStep, hev, hdata] at hd
      · by_cases hack : (decodeUDPHeader reply).commandId = CMD_ACK_OK
        · by_cases hlen : total.length = size
          · exact ⟨by simp [hev], hack, hlen⟩
          · simp [handlePreparedStep, hev, hdata, hack, hlen,
              CMD_DATA, CMD_ACK_OK, CMD_PREPARE_DATA] at hd
        · by_cases hprep : (decodeUDPHeader reply).commandId = CMD_PREPARE_DATA
          · simp [handlePreparedStep, hev, hdata, hack, hprep,
              CMD_DATA, CMD_ACK_OK, CMD_PREPARE_DATA] at hd
          · simp [handlePreparedStep, hev, hdata, hack, hprep] at hd
  · rintro ⟨hev, hack, hlen⟩
    have hdata : (decodeUDPHeader reply).commandId ≠ CMD_DATA := by
      rw [hack]; decide
    exact ⟨total, by simp [handlePreparedStep, hev, hdata, hack, hlen,
      CMD_DATA, CMD_ACK_OK]⟩

theorem chunkLoop_eq (n M r : Nat) :
    chunkLoop n M r = ((List.range n).map fun i => (i * M, M)) ++ [(n * M, r)] := by
  unfold chunkLoop
  rw [List.range_succ, List.map_append]
  congr 1
  · apply List.map_congr_left
    intro i hi
    rw [List.mem_range] at hi
    simp [Nat.ne_of_lt hi]
  · simp

theorem range_map_const_sum (k M : Nat) :
    (((List.range k).map fun _ => M).sum) = k * M := by
  induction k with
  | zero => simp
  | succ n ih =>
    rw [List.range_succ, List.map_append, List.sum_append]
    simp [ih, Nat.succ_mul]

/-- C4: for every announced size N the chunked-receive loops of both
transports issue exactly floor(N / MAX_CHUNK) DATA_RDY requests of size
MAX_CHUNK at starts 0, MAX_CHUNK, 2 MAX_CHUNK, and so on, followed by exactly
one final request of size N mod MAX_CHUNK (zero-sized when N is a multiple of
MAX_CHUNK), and the requested sizes sum to N. -/
theorem c4_chunk_requests (size : Nat) :
    sendChunkRequestsTCP size = sendChunkRequestsUDP size
    ∧ sendChunkRequestsUDP size =
        ((List.range (size / MAX_CHUNK)).map fun i => (i * MAX_CHUNK, MAX_CHUNK))
          ++ [((size / MAX_CHUNK) * MAX_CHUNK, size % MAX_CHUNK)]
    ∧ ((sendChunkRequestsUDP size).map Prod.snd).sum = size := by
  have hdiv : (size - size % MAX_CHUNK) / MAX_CHUNK = size / MAX_CHUNK := by
    unfold MAX_CHUNK
    omega
  refine ⟨?_, ?_, ?_⟩
  · simp only [sendChunkRequestsTCP, sendChunkRequestsUDP]
    rw [hdiv]
  · unfold sendChunkRequestsUDP
    exact chunkLoop_eq _ _ _
  · unfold sendChunkRequestsUDP
    rw [chunkLoop_eq, List.map_append, List.sum_append, List.map_map]
    have hc : ((List.range (size / MAX_CHUNK)).map
        (Prod.snd ∘ fun i => (i * MAX_CHUNK, MAX_CHUNK))).sum
          = (size / MAX_CHUNK) * MAX_CHUNK := by
      rw [show (Prod.snd ∘ fun i : Nat => (i * MAX_CHUNK, MAX_CHUNK)) = fun _ => MAX_CHUNK
        from rfl]
      exact range_map_const_sum _ _
    rw [hc]
    simp only [List.map_cons, List.map_nil, List.sum_cons, List.sum_nil]
    unfold MAX_CHUNK
    omega

theorem getD_take : ∀ (l : List Nat) (n i : Nat), i < n →
    (l.take n).getD i 0 = l.getD i 0
  | [], _, _, _ => by simp
  | _ :: _, n + 1, 0, _ => by simp
  | a :: l, n + 1, i + 1, h => by
    simp only [List.take_succ_cons, List.getD_cons_succ]
    exact getD_take l n i (Nat.lt_of_succ_lt_succ h)

/-- C7: the TCP discriminator classifies a buffer as an event exactly when,
after stripping the TCP prefix when present, the u16 LE at offset 0 equals
REG_EVENT and the u16 LE at offset 4 equals EF_ATTLOG; the UDP discriminator
classifies a datagram as an event exactly when the commandId of its 8-byte
header equals REG_EVENT. -/
theorem c7_event_discrimination :
    (∀ d : List Nat, 6 ≤ (removeTcpHeader d).length →
        (checkNotEventTCP d = true ↔
          u16le (removeTcpHeader d) 0 = CMD_REG_EVENT
          ∧ u16le (removeTcpHeader d) 4 = EF_ATTLOG))
    ∧ (∀ d : List Nat, 8 ≤ d.length →
        (checkNotEventUDP d = true ↔ u16le d 0 = CMD_REG_EVENT)) := by
  constructor
  · intro d h
    simp only [checkNotEventTCP]
    rw [if_neg (by omega)]
    simp [and_comm]
  · intro d _
    simp only [checkNotEventUDP, decodeUDPHeader, decide_eq_true_eq, u16le]
    rw [getD_take d 8 0 (by omega), getD_take d 8 1 (by omega)]

theorem c7_event_discrimination_witness :
    checkNotEventTCP [244, 1, 0, 0, 1, 0] = true
    ∧ checkNotEventUDP [244, 1, 0, 0, 0, 0, 0, 0] = true := by
  exact ⟨(c7_event_discrimination.1 [244, 1, 0, 0, 1, 0] (by decide)).mpr (by decide),
    (c7_event_discrimination.2 [244, 1, 0, 0, 0, 0, 0, 0] (by decide)).mpr (by decide)⟩

theorem tcpSockStep_inv (s : TcpSockState) (e : TcpSockEvent)
    (h1 : s.present = false → s.status = "Closed")
    (h2 : s.status = "Closed" ∨ s.status = "Open"
      ∨ (s.status = "Error" ∧ s.destroyed = true)) :
    ((tcpSockStep s e).present = false → (tcpSockStep s e).status = "Closed")
    ∧ ((tcpSockStep s e).status = "Closed" ∨ (tcpSockStep s e).status = "Open"
      ∨ ((tcpSockStep s e).status = "Error" ∧ (tcpSockStep s e).destroyed = true)) := by
  cases e <;> by_cases hp : s.present = true <;>
    simp_all [tcpSockStep]

theorem tcpSockFold_inv (evs : List TcpSockEvent) :
    ∀ s : TcpSockState,
      (s.present = false → s.status = "Closed") →
      (s.status = "Closed" ∨ s.status = "Open"
        ∨ (s.status = "Error" ∧ s.destroyed = true)) →
      ((evs.foldl tcpSockStep s).present = false →
          (evs.foldl tcpSockStep s).status = "Closed")
      ∧ ((evs.foldl tcpSockStep s).status = "Closed"
        ∨ (evs.foldl tcpSockStep s).status = "Open"
        ∨ ((evs.foldl tcpSockStep s).status = "Error"
            ∧ (evs.foldl tcpSockStep s).destroyed = true)) := by
  induction evs with
  | nil => exact fun s h1 h2 => ⟨h1, h2⟩
  | cons e rest ih =>
    intro s h1 h2
    have h := tcpSockStep_inv s e h1 h2
    exact ih _ h.1 h.2

/-- C8: in every state reachable through the socket lifecycle, the TCP
getSocketStatus returns one of exactly the three strings No socket instance,
Closed, Open (the Error status set by the error handler is never returned,
because the Node runtime destroys the socket before emitting the error event
and a destroyed socket reports Closed); the UDP getSocketStatus returns one of
No socket instance, Unbound, or Bound to port N. -/
theorem c8_socket_status :
    (∀ evs : List TcpSockEvent,
        getSocketStatusTCP (tcpSockRun evs) = "No socket instance"
        ∨ getSocketStatusTCP (tcpSockRun evs) = "Closed"
        ∨ getSocketStatusTCP (tcpSockRun evs) = "Open")
    ∧ (∀ s : UdpSockState,
        getSocketStatusUDP s = "No socket instance"
        ∨ getSocketStatusUDP s = "Unbound"
        ∨ ∃ p : Nat, getSocketStatusUDP s = "Bound to port " ++ toString p) := by
  constructor
  · intro evs
    have h := tcpSockFold_inv evs tcpSockInit (fun _ => rfl) (Or.inl rfl)
    have hrun : tcpSockRun evs = evs.foldl tcpSockStep tcpSockInit := rfl
    rw [hrun] at *
    set t := evs.foldl tcpSockStep tcpSockInit with ht
    by_cases hp : t.present = true
    · by_cases hd : t.destroyed = true
      · right; left
        simp [getSocketStatusTCP, hp, hd]
      · rcases h.2 with hc | ho | ⟨_, hdes⟩
        · right; left
          simp [getSocketStatusTCP, hp, hd, hc]
        · right; right
          simp [getSocketStatusTCP, hp, hd, ho]
        · exact absurd hdes hd
    · left
      simp [getSocketStatusTCP, hp]
  · intro s
    by_cases hp : s.present = true
    · cases hb : s.boundPort with
      | some p =>
        right; right
        exact ⟨p, by simp [getSocketStatusUDP, hp, hb]⟩
      | none =>
        right; left
        simp [getSocketStatusUDP, hp, hb]
    · left
      simp [getSocketStatusUDP, hp]

/-- C9: while the facade has no connection type recorded (createSocket has not
succeeded), functionWrapper, through which every public operation passes,
throws the ZKError with code ECONNREFUSED and the message Socket isn
apostrophe t connected ! with empty command context, whatever the transport
sockets and callbacks look like; no transport callback runs, so no I/O happens
and no transport state changes. -/
theorem c9_wrapper_no_connection (tcpSocket udpSocket hasUdpCb : Bool) (ip : String) :
    functionWrapper none tcpSocket udpSocket hasUdpCb ip =
      .fail ⟨.ECONNREFUSED, socketNotConnectedMsg, "", ip⟩ := rfl

/-- C10, counterexample: a CONNECT reply of five bytes (no TCP prefix, so it
strips to itself) makes connect() fail through the out-of-range session-id
read at offset 4, a failure that is neither a write error nor a timeout, so
write errors and timeouts are not the only ways connect() can fail. -/
theorem c10_connect_short_reply_cex :
    connectTCP ⟨none, 0⟩ (.reply [1, 2, 3, 4, 5]) =
      (⟨some 0, 0⟩, .error .sessionIdReadOutOfRange)
    ∧ ExecErr.sessionIdReadOutOfRange ≠ ExecErr.writeErr
    ∧ ExecErr.sessionIdReadOutOfRange ≠ ExecErr.writeTimeout := by
  refine ⟨rfl, by decide, by decide⟩

/-- C10, amended: on the TCP transport connect() resolves successfully even
when the CONNECT reply strips to an empty buffer, and the session id then
stays at 0, the reset value; connect() fails only on a write error, a
timeout, or a nonempty stripped reply shorter than 6 bytes, on which the
session-id read at offset 4 throws out of range. -/
theorem c10_connect_amended :
    (∀ (s : ZkSession) (r : List Nat), removeTcpHeader r = [] →
        connectTCP s (.reply r) = (⟨some 0, 0⟩, .ok true))
    ∧ (∀ (s s1 : ZkSession) (w : WireOutcome) (e : ExecErr),
        connectTCP s w = (s1, .error e) →
          w = .writeErr ∨ w = .writeTimeout
          ∨ ∃ r, w = .reply r ∧ (removeTcpHeader r).length ≠ 0
              ∧ (removeTcpHeader r).length < 6) := by
  constructor
  · intro s r hr
    simp [connectTCP, executeCmdTCP, executeCmdUpdateTCP, hr]
  · intro s s1 w e h
    cases w with
    | writeErr => exact Or.inl rfl
    | writeTimeout => exact Or.inr (Or.inl rfl)
    | reply r =>
      refine Or.inr (Or.inr ⟨r, rfl, ?_⟩)
      by_cases hlen : (removeTcpHeader r).length = 0
      · simp [connectTCP, executeCmdTCP, hlen] at h
      · by_cases h6 : 6 ≤ (removeTcpHeader r).length
        · simp [connectTCP, executeCmdTCP, hlen, h6] at h
        · exact ⟨hlen, by omega⟩

theorem c10_connect_amended_witness :
    connectTCP ⟨none, 0⟩ (.reply []) = (⟨some 0, 0⟩, .ok true)
    ∧ (WireOutcome.writeErr = WireOutcome.writeErr
      ∨ WireOutcome.writeErr = WireOutcome.writeTimeout
      ∨ ∃ r, WireOutcome.writeErr = WireOutcome.reply r
          ∧ (removeTcpHeader r).length ≠ 0 ∧ (removeTcpHeader r).length < 6) := by
  exact ⟨c10_connect_amended.1 ⟨none, 0⟩ [] rfl,
    c10_connect_amended.2 ⟨none, 0⟩ ⟨some 0, 0⟩ .writeErr .writeErr rfl⟩
